import Mathlib

/-!
Verification model of the soil quality sensor firmware
(src/soil_quality_sensor_freertos/src/main.cpp).

The firmware is shallowly embedded as follows.  Each task iteration is a
pure function from an environment (the values returned this iteration by
the external collaborators: WiFi status, MQTT client, the PMU chip, the
pseudo random generator) and the device state (the global variables of the
sketch) to a result carrying the successor state and a trace of the
externally visible actions the iteration performed, in program order.
Non returning calls (esp_deep_sleep_start, axp.shutdown) end the trace and
are marked by a dedicated result constructor or a missing successor state.
Machine integers: bootCount is a uint32_t held in RTC memory; it is
modelled as a Nat reduced modulo 2^32 at the increment.  The float values
formatted by sprintf are modelled as scaled integers (hundredths for the
two soil values, millivolts for the battery) which is exact for the values
the program produces.
-/

namespace SoilSensor

/-- Externally visible actions of the firmware, in the vocabulary of the
    sketch: FreeRTOS calls, semaphore operations, serial log lines, AXP192
    PMU operations, ESP32 sleep calls, WiFi and MQTT operations.  The
    constructor sensorRead stands for a read of a physical soil sensor
    (DS18B20 / FC-38); the sketch never performs one, and the theorems
    record that fact. -/
inductive Action where
  | otaHandle
  | mqttLoop
  | takeLock
  | giveLock
  | logLine (msg : String)
  | logInt (v : Int)
  | delayMs (ms : Nat)
  | wifiBegin
  | ledWrite (b : Bool)
  | randomCall (lo hi result : Nat)
  | readBattMv (mv : Nat)
  | sensorRead
  | publishMsg (topic payload : String)
  | bootInc
  | armTimerUs (us : Nat)
  | deepSleepCmd
  | readIRQ
  | clearIRQ
  | shutdownCmd
  | clearPressFlag
  | createTask (nm : String)
  deriving Repr, DecidableEq

/-- Global variables of the sketch that persist between task iterations:
    bootCount (RTC memory, uint32_t), ledState, and the connection state
    of the WiFi interface and of the MQTT client. -/
structure DeviceState where
  bootCount : Nat
  ledState : Bool
  wifiConnected : Bool
  mqttConnected : Bool
  deriving Repr, DecidableEq

/-- SLEEP_DURATION_US = 30ULL * 1000000 (main.cpp line 75). -/
def SLEEP_DURATION_US : Nat := 30 * 1000000

/-- Modulus of the uint32_t bootCount stored in RTC memory. -/
def UINT32_MOD : Nat := 4294967296

/-- ssid constant of the sketch (main.cpp line 61): the empty string. -/
def ssid : String := ""

/-- Publish topic (main.cpp line 67). -/
def mqttTopicPub : String := "v1/devices/me/telemetry"

/-- Exactly k decimal digits of m (leading zeros included), as produced by
    the fractional part of a sprintf %.kf conversion. -/
def padDigits (k m : Nat) : String :=
  String.mk ((List.range k).map (fun i => Char.ofNat (48 + m / 10 ^ (k - 1 - i) % 10)))

/-- Space padding of a sprintf conversion to its minimum field width w. -/
def padSpaces (w : Nat) (core : String) : String :=
  if core.length < w then String.mk (List.replicate (w - core.length) ' ') ++ core
  else core

/-- sprintf %w.pf applied to the scaled integer n (n counts units of
    10^(-p)): integer part, a dot, exactly p fractional digits, padded on
    the left with spaces to a minimum field width w. -/
def fmtFixed (w p n : Nat) : String :=
  padSpaces w (toString (n / 10 ^ p) ++ "." ++ padDigits p (n % 10 ^ p))

/-- The sprintf of main.cpp lines 164-165: the JSON telemetry record with
    bootCnt (%lu), soilTemperature (%4.2f, scaled by 100), soilMoisture
    (%5.2f, scaled by 100) and batVoltage (%4.3f, scaled by 1000, i.e.
    millivolts). -/
def serializeTelemetry (bc temp moist mv : Nat) : String :=
  "\x7b\"bootCnt\":" ++ toString bc ++
  ",\"soilTemperature\":" ++ fmtFixed 4 2 temp ++
  ",\"soilMoisture\":" ++ fmtFixed 5 2 moist ++
  ",\"batVoltage\":" ++ fmtFixed 4 3 mv ++ "\x7d"

/-- Number of characters strictly after the last dot of s (counted from the
    right, stopping at the first dot). -/
def fracLen (s : String) : Nat :=
  (s.data.reverse.takeWhile (fun c => c ≠ '.')).length

/-- Trace of one iteration of the while loop of reconnectToMQTT
    (main.cpp lines 336-357): log the attempt; on success log connected,
    on failure log the status code rc (three serial writes under one lock
    acquisition, as in the sketch) and delay 5000 ms. -/
def mqttAttemptTrace (ok : Bool) (rc : Int) : List Action :=
  [.takeLock, .logLine "Attempting MQTT connection...", .giveLock] ++
  (if ok then [.takeLock, .logLine "connected", .giveLock]
   else [.takeLock, .logLine "failed, rc=", .logInt rc, .logLine " try again in 5 seconds",
         .giveLock, .delayMs 5000])

/-- reconnectToMQTT (main.cpp lines 335-358): loops until an attempt to
    connect succeeds.  The environment supplies the outcome of each attempt
    as a list of (success, status code) pairs; the function returns the
    trace performed and true when a connect succeeded.  An exhausted list
    with no success returns false: in the sketch the loop is simply still
    running (it never gives up), so false marks an unfinished iteration. -/
def reconnectToMQTT : List (Bool × Int) → List Action × Bool
  | [] => ([], false)
  | (ok, rc) :: rest =>
    if ok then (mqttAttemptTrace true rc, true)
    else (mqttAttemptTrace false rc ++ (reconnectToMQTT rest).1, (reconnectToMQTT rest).2)

/-- Body of the while loop at main.cpp lines 135-143, run n times: delay
    500 ms, log a dot under the lock, toggle ledState and write it to the
    LED pin.  Returns the trace and the final value of ledState. -/
def wifiRetryTrace : Nat → Bool → List Action × Bool
  | 0, led => ([], led)
  | n + 1, led =>
    ([.delayMs 500, .takeLock, .logLine ".", .giveLock, .ledWrite (!led)] ++
       (wifiRetryTrace n (!led)).1,
     (wifiRetryTrace n (!led)).2)

/-- The WiFi reconnect branch of MQTTTask (main.cpp lines 122-156): log the
    SSID, restart the interface, wait in the retry loop, log the address,
    and drive the LED pin low if ledState ended up true (note the sketch
    writes the pin low but leaves the ledState variable unchanged). -/
def wifiReconnectTrace (retries : Nat) (led : Bool) : List Action × Bool :=
  ([.takeLock, .logLine ("Connecting to WIFI SSID " ++ ssid), .giveLock,
    .delayMs 100, .wifiBegin] ++ (wifiRetryTrace retries led).1 ++
   [.takeLock, .logLine "WiFi connected, IP address: ", .giveLock] ++
   (if (wifiRetryTrace retries led).2 then [.ledWrite false] else []),
   (wifiRetryTrace retries led).2)

/-- Values returned by the external collaborators during one iteration of
    MQTTTask: whether the WiFi status read and the MQTT connected read come
    back down this iteration, the outcomes reconnectToMQTT would see, the
    number of WiFi retry waits, the publish outcome, the two values of the
    random() calls and the battery voltage in millivolts. -/
structure MqttEnv where
  wifiDrop : Bool
  mqttDrop : Bool
  mqttAttempts : List (Bool × Int)
  wifiRetries : Nat
  publishOk : Bool
  randTemp : Nat
  randMoist : Nat
  battMv : Nat
  deriving Repr, DecidableEq

/-- Result of one iteration of the MQTTTask while loop: stuck means the
    iteration is still inside the unbounded reconnectToMQTT loop (no
    successor state yet), sleeps means esp_deep_sleep_start was reached
    (non returning: the trace ends there), continues means the iteration
    fell through to the final vTaskDelay(100). -/
inductive MqttStepResult where
  | stuck (trace : List Action)
  | sleeps (s : DeviceState) (trace : List Action)
  | continues (s : DeviceState) (trace : List Action)
  deriving Repr, DecidableEq

/-- The trace of a step result, whichever constructor. -/
def MqttStepResult.trace : MqttStepResult → List Action
  | .stuck t => t
  | .sleeps _ t => t
  | .continues _ t => t

/-- One iteration of MQTTTask (main.cpp lines 113-188), in program order:
    ArduinoOTA.handle; reconnectToMQTT when the client reads disconnected;
    mqttClient.loop; then either the WiFi reconnect branch (status read not
    connected) or the publish branch: two random() calls, the battery read,
    one publish; on success log the record and enter deep sleep with the
    30 second timer armed after bootCount++ (uint32_t, hence mod 2^32); on
    failure log and fall through to vTaskDelay(100). -/
def MQTTTaskStep (env : MqttEnv) (s : DeviceState) : MqttStepResult :=
  let t0 : List Action := [.otaHandle]
  let mqttUp := s.mqttConnected && !env.mqttDrop
  let r := if mqttUp then (([] : List Action), true) else reconnectToMQTT env.mqttAttempts
  if r.2 = false then .stuck (t0 ++ r.1)
  else
    let s1 : DeviceState := { s with mqttConnected := true }
    let t1 := t0 ++ r.1 ++ [.mqttLoop]
    let wifiUp := s1.wifiConnected && !env.wifiDrop
    if wifiUp = false then
      let w := wifiReconnectTrace env.wifiRetries s1.ledState
      .continues { s1 with wifiConnected := true, ledState := w.2 } (t1 ++ w.1 ++ [.delayMs 100])
    else
      let payload := serializeTelemetry s1.bootCount env.randTemp env.randMoist env.battMv
      let pt : List Action :=
        [.randomCall 1000 4500 env.randTemp, .randomCall 0 10000 env.randMoist,
         .readBattMv env.battMv, .publishMsg mqttTopicPub payload]
      if env.publishOk then
        .sleeps { s1 with bootCount := (s1.bootCount + 1) % UINT32_MOD }
          (t1 ++ pt ++ [.takeLock, .logLine payload, .logLine "Going to sleep until next TX...",
                        .giveLock, .bootInc, .armTimerUs SLEEP_DURATION_US, .deepSleepCmd])
      else
        .continues s1
          (t1 ++ pt ++ [.takeLock, .logLine "Failed to publish data", .giveLock, .delayMs 100])

/-- Run MQTTTask iterations with the given per iteration environments until
    one enters deep sleep; some gives the state recorded at the sleep (the
    RTC bootCount already incremented).  none: the supplied environments
    did not reach a sleep (or an iteration is stuck reconnecting). -/
def runUntilSleep : List MqttEnv → DeviceState → Option DeviceState
  | [], _ => none
  | e :: es, s =>
    match MQTTTaskStep e s with
    | .sleeps s' _ => some s'
    | .continues s' _ => runUntilSleep es s'
    | .stuck _ => none

/-- State at MQTTTask start after a wake from deep sleep: the RTC variable
    bootCount is preserved, every other global restarts from its
    initializer and setup then runs; setup blocks until WiFi is connected
    before creating the tasks, so the task starts with WiFi up, the MQTT
    client not yet connected, and ledState as the setup loop left it. -/
def wakeReboot (bc : Nat) (led : Bool) : DeviceState :=
  { bootCount := bc, ledState := led, wifiConnected := true, mqttConnected := false }

/-- N complete wake cycles: each cycle is the list of iteration
    environments of the awake phase plus the ledState value the next setup
    leaves; a cycle completes when its iterations reach deep sleep, and the
    device then reboots with only bootCount preserved. -/
def runCycles : List (List MqttEnv × Bool) → DeviceState → Option DeviceState
  | [], s => some s
  | (c, led) :: cs, s =>
    match runUntilSleep c s with
    | none => none
    | some s' => runCycles cs (wakeReboot s'.bootCount led)

/-- One pass of the PEKTask while loop (main.cpp lines 191-211).  Inputs:
    the value of the pekPressed flag observed, and whether
    axp.isPEKLongtPressIRQ() reports a long press after axp.readIRQ().
    Returns the trace and, when the pass completes (axp.shutdown powers the
    device off and does not return, so the long press pass does not), the
    value of pekPressed after the pass. -/
def PEKTaskStep (pressed isLong : Bool) : List Action × Option Bool :=
  if pressed then
    if isLong then
      ([.clearPressFlag, .readIRQ, .takeLock,
        .logLine "Long press detected: Shutting down...", .giveLock,
        .delayMs 100, .shutdownCmd], none)
    else
      ([.clearPressFlag, .readIRQ, .clearIRQ, .delayMs 100], some false)
  else
    ([.delayMs 100], some false)

/-- One 500 ms poll of the WiFi wait loop inside setup (main.cpp lines
    261-278): whether the PMU IRQ pin reads low this poll, and whether the
    inlined classification then reports a long press. -/
structure SetupPoll where
  irqLow : Bool
  isLong : Bool
  deriving Repr, DecidableEq

/-- Result of setup: halted is the while(1) loop entered when the AXP192 is
    not detected (terminal, nothing further ever executes), poweredOff is
    the inlined long press shutdown during the WiFi wait (axp.shutdown does
    not return), tasksCreated carries the device state at task start. -/
inductive SetupResult where
  | halted (trace : List Action)
  | poweredOff (trace : List Action)
  | tasksCreated (s : DeviceState) (trace : List Action)
  deriving Repr, DecidableEq

/-- The WiFi wait loop of setup (main.cpp lines 261-278): each poll delays
    500 ms, logs a dot, toggles the LED, and, when the PMU IRQ pin reads
    low, runs the inlined press classification: a long press logs and
    shuts the device down (non returning), any other cause clears the IRQ.
    The loop exits when WiFi connects, i.e. when the poll list ends. -/
def setupWifiWait : List SetupPoll → Bool → List Action × Option Bool
  | [], led => ([], some led)
  | p :: ps, led =>
    let base : List Action := [.delayMs 500, .logLine ".", .ledWrite (!led)]
    if p.irqLow then
      if p.isLong then
        (base ++ [.readIRQ, .logLine "Long press detected: Shutting down...",
                  .delayMs 100, .shutdownCmd], none)
      else
        (base ++ [.readIRQ, .clearIRQ] ++ (setupWifiWait ps (!led)).1,
         (setupWifiWait ps (!led)).2)
    else
      (base ++ (setupWifiWait ps (!led)).1, (setupWifiWait ps (!led)).2)

/-- setup (main.cpp lines 217-320): verify the AXP192 is present (halt in
    while(1) if not, before anything else is configured), set up the PMU
    and the IRQ, connect to WiFi (blocking, with the inlined long press
    check), start OTA, configure TLS and the broker, create the semaphore
    and the two tasks.  rtcBootCount is the bootCount value held in RTC
    memory when setup runs (1 on cold boot). -/
def setup (axpDetected : Bool) (rtcBootCount : Nat) (polls : List SetupPoll) : SetupResult :=
  let t0 : List Action := [.logLine "Soil Quality Sensor Beta"]
  if axpDetected = false then
    .halted (t0 ++ [.logLine "AXP192 not detected!"])
  else
    let t1 := t0 ++ [.logLine "AXP192 detected", .logLine "GPS and LoRa powered off",
                     .clearIRQ, .logLine ("Connecting to WIFI SSID " ++ ssid),
                     .delayMs 100, .wifiBegin]
    match setupWifiWait polls false with
    | (wt, none) => .poweredOff (t1 ++ wt)
    | (wt, some led') =>
      .tasksCreated
        { bootCount := rtcBootCount, ledState := led', wifiConnected := true,
          mqttConnected := false }
        (t1 ++ wt ++ [.logLine "WiFi connected, IP address: "] ++
         (if led' then [.ledWrite false] else []) ++
         [.logLine "OTA service started!", .createTask "MQTTTask", .createTask "PEKTask"])

/-- Concrete iteration environment: everything connected, publish fails,
    random values 25.00 and 50.00, battery 4100 mV. -/
def envFail : MqttEnv :=
  { wifiDrop := false, mqttDrop := false, mqttAttempts := [], wifiRetries := 0,
    publishOk := false, randTemp := 2500, randMoist := 5000, battMv := 4100 }

/-- Concrete iteration environment: everything connected, publish
    succeeds, random values 25.00 and 50.00, battery 4100 mV. -/
def envOk : MqttEnv :=
  { envFail with publishOk := true }

/-- Like envOk, for an iteration right after a reboot: the MQTT client is
    not yet connected and the first reconnect attempt succeeds. -/
def envOk2 : MqttEnv :=
  { envOk with mqttAttempts := [(true, 0)] }

/-- Concrete connected device state with boot counter 7. -/
def st7 : DeviceState :=
  { bootCount := 7, ledState := false, wifiConnected := true, mqttConnected := true }

/-- Concrete connected device state with the boot counter at the largest
    uint32_t value. -/
def stMax : DeviceState :=
  { bootCount := 4294967295, ledState := false, wifiConnected := true, mqttConnected := true }

/-- The state two complete successful wake cycles reach from st7: boot
    counter 9, fresh reboot fields. -/
def st9run : DeviceState :=
  { bootCount := 9, ledState := false, wifiConnected := true, mqttConnected := false }

/-- The trace of a setup result, whichever constructor. -/
def setupTrace : SetupResult → List Action
  | .halted t => t
  | .poweredOff t => t
  | .tasksCreated _ t => t

/-- Lock accounting over a trace: d is the number of times the serial
    semaphore is currently held.  giveLock with the lock free is a fault
    (none); a non returning command (deep sleep, shutdown) executed while
    the lock is held is a fault, since the lock would be held forever. -/
def lockGo : List Action → Nat → Option Nat
  | [], d => some d
  | a :: t, d =>
    match a with
    | .takeLock => lockGo t (d + 1)
    | .giveLock => if d = 0 then none else lockGo t (d - 1)
    | .deepSleepCmd => if d = 0 then lockGo t d else none
    | .shutdownCmd => if d = 0 then lockGo t d else none
    | _ => lockGo t d

/-- A trace is lock safe when, started with the lock free, it commits no
    lock fault and ends with the lock free. -/
def lockSafe (t : List Action) : Prop := lockGo t 0 = some 0

instance (t : List Action) : Decidable (lockSafe t) := by
  unfold lockSafe; infer_instance

/-- Recognizer for publish actions. -/
def isPublish : Action → Bool
  | .publishMsg _ _ => true
  | _ => false

/-- Recognizer for log lines. -/
def isLogLine : Action → Bool
  | .logLine _ => true
  | _ => false

/-- Recognizer for task creation actions. -/
def isCreateTask : Action → Bool
  | .createTask _ => true
  | _ => false

/-- Recognizer for reads of external data sources: the pseudo random
    generator, the PMU battery ADC, or a physical soil sensor. -/
def isExternalRead : Action → Bool
  | .randomCall _ _ _ => true
  | .readBattMv _ => true
  | .sensorRead => true
  | _ => false

/-- The delays (ms) performed by a trace, in order. -/
def delaysOf (t : List Action) : List Nat :=
  t.filterMap (fun a => match a with | .delayMs n => some n | _ => none)

/-- Recognizer for the failure log line of reconnectToMQTT. -/
def isFailLog : Action → Bool
  | .logLine "failed, rc=" => true
  | _ => false

/-- True when every log line of the trace is written while the serial
    semaphore is held at least once (d counts current acquisitions). -/
def logsLockedGo : List Action → Nat → Bool
  | [], _ => true
  | a :: t, d =>
    match a with
    | .takeLock => logsLockedGo t (d + 1)
    | .giveLock => logsLockedGo t (d - 1)
    | .logLine _ => decide (0 < d) && logsLockedGo t d
    | .logInt _ => decide (0 < d) && logsLockedGo t d
    | _ => logsLockedGo t d

/-!  Theorems.  Each claim of the specification is settled below; helper
lemmas precede the claim theorems that use them. -/

/-- C4: whenever the Power Task observes the Press Flag (pekPressed) true,
    the first two actions of the pass are the clear of the flag and then
    the IRQ cause query (axp.readIRQ), in that order; and whenever the
    pass completes, the flag is false afterwards, whatever the cause. -/
theorem pek_flag_cleared_on_observation :
    ∀ isLong : Bool,
      (PEKTaskStep true isLong).1.take 2 = [Action.clearPressFlag, Action.readIRQ] ∧
      (PEKTaskStep true isLong).2.getD false = false := by
  intro l; cases l <;> exact ⟨rfl, rfl⟩

/-- C5: a long press pass issues exactly one shutdown command, preceded by
    exactly one diagnostic log line, written under the console lock; a
    non long press pass issues no shutdown and no log line, and an idle
    pass (flag false) issues no shutdown either. -/
theorem pek_long_press_shutdown_classification :
    (PEKTaskStep true true).1.countP (fun a => a == Action.shutdownCmd) = 1 ∧
    ((PEKTaskStep true true).1.takeWhile
        (fun a => !(a == Action.shutdownCmd))).countP isLogLine = 1 ∧
    logsLockedGo (PEKTaskStep true true).1 0 = true ∧
    (PEKTaskStep true false).1.countP (fun a => a == Action.shutdownCmd) = 0 ∧
    (PEKTaskStep true false).1.countP isLogLine = 0 ∧
    (PEKTaskStep false true).1.countP (fun a => a == Action.shutdownCmd) = 0 ∧
    (PEKTaskStep false false).1.countP (fun a => a == Action.shutdownCmd) = 0 := by
  decide

/-- C6 counterexample: in the long press pass the interrupt source is NOT
    re-armed: axp.shutdown() does not return, and the axp.clearIRQ() call
    placed after the classification is therefore never reached, so the
    pass contains no clearIRQ action at all. -/
theorem pek_irq_rearm_counterexample :
    (PEKTaskStep true true).1.countP (fun a => a == Action.clearIRQ) = 0 := by
  decide

/-- C6 amended: the interrupt source is re-armed exactly once on every
    pass that observes the flag true and does not classify a long press;
    an idle pass does not touch it; and on a long press classification the
    pass ends at the non returning shutdown command without re-arming. -/
theorem pek_irq_rearm_amended :
    (PEKTaskStep true false).1.countP (fun a => a == Action.clearIRQ) = 1 ∧
    (PEKTaskStep false true).1.countP (fun a => a == Action.clearIRQ) = 0 ∧
    (PEKTaskStep true true).1.countP (fun a => a == Action.clearIRQ) = 0 ∧
    (PEKTaskStep true true).1.getLast? = some Action.shutdownCmd := by
  decide

/-- C8: when the AXP192 power management chip is not detected, setup halts
    in the while(1) loop right after the failure log, whatever the boot
    counter and whatever the WiFi polls would have produced: the result is
    the terminal halted state, and its trace creates no task, publishes
    nothing and reads no external data source. -/
theorem setup_halts_when_axp_missing :
    ∀ (bc : Nat) (polls : List SetupPoll),
      setup false bc polls =
        SetupResult.halted [Action.logLine "Soil Quality Sensor Beta",
                            Action.logLine "AXP192 not detected!"] ∧
      (setupTrace (setup false bc polls)).countP isCreateTask = 0 ∧
      (setupTrace (setup false bc polls)).countP isPublish = 0 ∧
      (setupTrace (setup false bc polls)).countP isExternalRead = 0 := by
  intro bc polls
  exact ⟨rfl, rfl, rfl, rfl⟩

/-- reconnectToMQTT reports success exactly when some supplied attempt
    succeeds: the loop exits only once a connect call returned true. -/
theorem reconnect_success_iff (atts : List (Bool × Int)) :
    (reconnectToMQTT atts).2 = atts.any (fun p => p.1) := by
  induction atts with
  | nil => rfl
  | cons a rest ih =>
    obtain ⟨ok, rc⟩ := a
    cases ok <;> simp [reconnectToMQTT, ih]

/-- Every delay reconnectToMQTT performs is exactly 5000 ms, one per
    failed attempt before the first success. -/
theorem reconnect_delays (atts : List (Bool × Int)) :
    delaysOf (reconnectToMQTT atts).1 =
      List.replicate (atts.takeWhile (fun p => !p.1)).length 5000 := by
  induction atts with
  | nil => rfl
  | cons a rest ih =>
    obtain ⟨ok, rc⟩ := a
    cases ok
    · simpa [reconnectToMQTT, delaysOf, List.filterMap_append, mqttAttemptTrace,
             List.replicate_succ] using ih
    · simp [reconnectToMQTT, delaysOf, mqttAttemptTrace]

/-- reconnectToMQTT logs the failure line (with the status code) once per
    failed attempt before the first success. -/
theorem reconnect_fail_count (atts : List (Bool × Int)) :
    (reconnectToMQTT atts).1.countP isFailLog =
      (atts.takeWhile (fun p => !p.1)).length := by
  induction atts with
  | nil => rfl
  | cons a rest ih =>
    obtain ⟨ok, rc⟩ := a
    cases ok
    · simpa [reconnectToMQTT, List.countP_append, mqttAttemptTrace, isFailLog] using ih
    · simp [reconnectToMQTT, List.countP_append, mqttAttemptTrace, isFailLog]

/-- C7: reconnectToMQTT returns only when the session is connected (its
    success flag equals some attempt having succeeded); each failed
    attempt contributes exactly one fixed 5000 ms delay and one failure
    log with the status code, with no escalation; and there is no maximum
    attempt cutoff: after any number n of consecutive failures the loop is
    still running (has not returned). -/
theorem mqtt_reconnect_fixed_five_second_retry :
    (∀ atts : List (Bool × Int), (reconnectToMQTT atts).2 = atts.any (fun p => p.1)) ∧
    (∀ atts : List (Bool × Int),
       delaysOf (reconnectToMQTT atts).1 =
         List.replicate (atts.takeWhile (fun p => !p.1)).length 5000) ∧
    (∀ atts : List (Bool × Int),
       (reconnectToMQTT atts).1.countP isFailLog =
         (atts.takeWhile (fun p => !p.1)).length) ∧
    (∀ (n : Nat) (rc : Int),
       (reconnectToMQTT (List.replicate n (false, rc))).2 = false) := by
  refine ⟨reconnect_success_iff, reconnect_delays, reconnect_fail_count, ?_⟩
  intro n rc
  simp [reconnect_success_iff, List.any_eq_true, List.mem_replicate]

/-- No character produced for the fractional digits is a dot. -/
theorem padDigits_no_dot (k m : Nat) : ∀ c ∈ (padDigits k m).data, c ≠ '.' := by
  intro c hc
  simp [padDigits] at hc
  obtain ⟨i, hi, rfl⟩ := hc
  have h10 : m / 10 ^ (k - 1 - i) % 10 < 10 := Nat.mod_lt _ (by norm_num)
  generalize m / 10 ^ (k - 1 - i) % 10 = d at h10
  interval_cases d <;> decide

/-- takeWhile walks through a prefix on which the predicate holds. -/
theorem takeWhile_append_all {α} (p : α → Bool) :
    ∀ (l1 l2 : List α), (∀ a ∈ l1, p a = true) →
      (l1 ++ l2).takeWhile p = l1 ++ l2.takeWhile p := by
  intro l1
  induction l1 with
  | nil => intro l2 _; simp
  | cons a l1 ih =>
    intro l2 h
    have ha := h a (by simp)
    simp [List.takeWhile_cons, ha, ih l2 (fun b hb => h b (by simp [hb]))]

/-- A %w.pf conversion always carries exactly p digits after its (last)
    dot, whatever the value and the field width. -/
theorem fracLen_fmtFixed (w p n : Nat) : fracLen (fmtFixed w p n) = p := by
  have hnodot := padDigits_no_dot p (n % 10 ^ p)
  have hlen : (padDigits p (n % 10 ^ p)).data.length = p := by
    simp [padDigits]
  have key : ∀ pre : List Char,
      ((pre ++ (toString (n / 10 ^ p) ++ "." ++ padDigits p (n % 10 ^ p)).data).reverse.takeWhile
        (fun c => c ≠ '.')).length = p := by
    intro pre
    have hcoredata : (toString (n / 10 ^ p) ++ "." ++ padDigits p (n % 10 ^ p)).data =
        (toString (n / 10 ^ p)).data ++ '.' :: (padDigits p (n % 10 ^ p)).data := by
      simp [String.data_append]
    rw [hcoredata]
    rw [show pre ++ ((toString (n / 10 ^ p)).data ++ '.' :: (padDigits p (n % 10 ^ p)).data)
        = (pre ++ (toString (n / 10 ^ p)).data ++ ['.']) ++ (padDigits p (n % 10 ^ p)).data by
      simp]
    rw [List.reverse_append]
    rw [takeWhile_append_all _ _ _ (by
      intro c hc
      simp [List.mem_reverse] at hc
      have := hnodot c hc
      simpa using this)]
    have hstop : ((pre ++ (toString (n / 10 ^ p)).data ++ ['.']).reverse).takeWhile
        (fun c => (c ≠ '.' : Bool)) = [] := by
      simp [List.reverse_append]
    rw [hstop]
    simp [hlen]
  unfold fmtFixed padSpaces
  by_cases h : (toString (n / 10 ^ p) ++ "." ++ padDigits p (n % 10 ^ p)).length < w
  · simp only [h, if_true]
    simp only [fracLen, String.data_append]
    exact key _
  · simp only [h, if_false]
    simpa only [fracLen] using key []

/-- Rebuilding a state from its own fields, with the two connectivity
    flags at the values they already have, is the identity. -/
theorem state_eta {s : DeviceState} (hw : s.wifiConnected = true)
    (hm : s.mqttConnected = true) :
    (⟨s.bootCount, s.ledState, true, true⟩ : DeviceState) = s := by
  cases s
  simp_all

/-- The connected iteration with a failing publish, as one equation: the
    successor state is exactly the entry state. -/
theorem step_publish_fail (env : MqttEnv) (s : DeviceState)
    (h1 : s.mqttConnected = true) (h2 : env.mqttDrop = false)
    (h3 : s.wifiConnected = true) (h4 : env.wifiDrop = false)
    (h5 : env.publishOk = false) :
    MQTTTaskStep env s =
      .continues s
        [.otaHandle, .mqttLoop,
         .randomCall 1000 4500 env.randTemp, .randomCall 0 10000 env.randMoist,
         .readBattMv env.battMv,
         .publishMsg mqttTopicPub
           (serializeTelemetry s.bootCount env.randTemp env.randMoist env.battMv),
         .takeLock, .logLine "Failed to publish data", .giveLock, .delayMs 100] := by
  simp [MQTTTaskStep, h1, h2, h3, h4, h5, state_eta h3 h1]

/-- The connected iteration with a successful publish, as one equation:
    the boot counter is incremented (uint32_t) and the trace ends at the
    deep sleep call with the 30 second timer armed just before. -/
theorem step_publish_ok (env : MqttEnv) (s : DeviceState)
    (h1 : s.mqttConnected = true) (h2 : env.mqttDrop = false)
    (h3 : s.wifiConnected = true) (h4 : env.wifiDrop = false)
    (h5 : env.publishOk = true) :
    MQTTTaskStep env s =
      .sleeps ⟨(s.bootCount + 1) % UINT32_MOD, s.ledState, true, true⟩
        [.otaHandle, .mqttLoop,
         .randomCall 1000 4500 env.randTemp, .randomCall 0 10000 env.randMoist,
         .readBattMv env.battMv,
         .publishMsg mqttTopicPub
           (serializeTelemetry s.bootCount env.randTemp env.randMoist env.battMv),
         .takeLock,
         .logLine (serializeTelemetry s.bootCount env.randTemp env.randMoist env.battMv),
         .logLine "Going to sleep until next TX...", .giveLock,
         .bootInc, .armTimerUs SLEEP_DURATION_US, .deepSleepCmd] := by
  simp [MQTTTaskStep, h1, h2, h3, h4, h5]

/-- C3: when the client and WiFi read connected and the publish call
    fails, the iteration leaves the whole device state unchanged (same
    boot counter, same connectivity), makes exactly one publish attempt,
    enters no deep sleep, performs no boot counter increment, logs the
    failure and falls through to the 100 ms task delay; the record exists
    only in the discarded trace, the successor state retains nothing. -/
theorem publish_failure_keeps_state :
    ∀ (env : MqttEnv) (s : DeviceState),
      s.mqttConnected = true → env.mqttDrop = false →
      s.wifiConnected = true → env.wifiDrop = false →
      env.publishOk = false →
      MQTTTaskStep env s =
        .continues s
          [.otaHandle, .mqttLoop,
           .randomCall 1000 4500 env.randTemp, .randomCall 0 10000 env.randMoist,
           .readBattMv env.battMv,
           .publishMsg mqttTopicPub
             (serializeTelemetry s.bootCount env.randTemp env.randMoist env.battMv),
           .takeLock, .logLine "Failed to publish data", .giveLock, .delayMs 100] ∧
      (MQTTTaskStep env s).trace.countP isPublish = 1 ∧
      (MQTTTaskStep env s).trace.countP (fun a => a == Action.deepSleepCmd) = 0 ∧
      (MQTTTaskStep env s).trace.countP (fun a => a == Action.bootInc) = 0 := by
  intro env s h1 h2 h3 h4 h5
  have hstep := step_publish_fail env s h1 h2 h3 h4 h5
  refine ⟨hstep, ?_, ?_, ?_⟩ <;>
    simp [hstep, MqttStepResult.trace, isPublish, List.countP_cons]

/-- C3 witness: the publish failure branch at a concrete connected state
    enters no deep sleep. -/
theorem publish_failure_keeps_state_witness :
    (MQTTTaskStep envFail st7).trace.countP (fun a => a == Action.deepSleepCmd) = 0 :=
  (publish_failure_keeps_state envFail st7 rfl rfl rfl rfl rfl).2.2.1

/-- An iteration that falls through to the task delay leaves the boot
    counter unchanged. -/
theorem continues_bootCount (env : MqttEnv) (s s' : DeviceState) (t : List Action)
    (h : MQTTTaskStep env s = .continues s' t) : s'.bootCount = s.bootCount := by
  simp only [MQTTTaskStep] at h
  repeat' split at h
  all_goals cases h <;> rfl

/-- An iteration that enters deep sleep increments the boot counter by
    exactly one (as a uint32_t). -/
theorem sleeps_bootCount (env : MqttEnv) (s s' : DeviceState) (t : List Action)
    (h : MQTTTaskStep env s = .sleeps s' t) :
    s'.bootCount = (s.bootCount + 1) % UINT32_MOD := by
  simp only [MQTTTaskStep] at h
  repeat' split at h
  all_goals cases h <;> rfl

/-- One complete wake cycle (any number of non sleeping iterations, then
    the iteration that enters deep sleep) increments the boot counter by
    exactly one (as a uint32_t). -/
theorem runUntilSleep_bootCount :
    ∀ (es : List MqttEnv) (s s' : DeviceState),
      runUntilSleep es s = some s' →
      s'.bootCount = (s.bootCount + 1) % UINT32_MOD := by
  intro es
  induction es with
  | nil => intro s s' h; simp [runUntilSleep] at h
  | cons e es ih =>
    intro s s' h
    simp only [runUntilSleep] at h
    cases hstep : MQTTTaskStep e s with
    | stuck t => rw [hstep] at h; simp at h
    | sleeps s1 t =>
      rw [hstep] at h
      simp at h
      rw [← h]
      exact sleeps_bootCount e s s1 t hstep
    | continues s1 t =>
      rw [hstep] at h
      have := ih s1 s' h
      rw [this, continues_bootCount e s s1 t hstep]

/-- Over any sequence of complete wake cycles the boot counter advances by
    the number of cycles, modulo 2^32. -/
theorem runCycles_bootCount :
    ∀ (cs : List (List MqttEnv × Bool)) (s s' : DeviceState),
      s.bootCount < UINT32_MOD → runCycles cs s = some s' →
      s'.bootCount = (s.bootCount + cs.length) % UINT32_MOD := by
  intro cs
  induction cs with
  | nil =>
    intro s s' hlt h
    simp [runCycles] at h
    simp [← h, Nat.mod_eq_of_lt hlt]
  | cons c cs ih =>
    obtain ⟨es, led⟩ := c
    intro s s' hlt h
    simp only [runCycles] at h
    cases hrun : runUntilSleep es s with
    | none => rw [hrun] at h; simp at h
    | some s1 =>
      rw [hrun] at h
      have h1 := runUntilSleep_bootCount es s s1 hrun
      have hlt1 : (wakeReboot s1.bootCount led).bootCount < UINT32_MOD := by
        show s1.bootCount < UINT32_MOD
        rw [h1]
        exact Nat.mod_lt _ (by norm_num [UINT32_MOD])
      have hrec := ih (wakeReboot s1.bootCount led) s' hlt1 h
      have hw : (wakeReboot s1.bootCount led).bootCount = s1.bootCount := rfl
      rw [hw, h1] at hrec
      rw [hrec]
      simp only [UINT32_MOD, List.length_cons]
      omega

/-- C1 counterexample: one successful wake cycle starting with the boot
    counter at 4294967295 (the largest uint32_t value) ends with the boot
    counter at 0, not at 4294967295 + 1: the RTC counter wraps. -/
theorem boot_counter_wrap_counterexample :
    runUntilSleep [envOk] stMax =
      some ⟨0, false, true, true⟩ ∧
    (0 : Nat) ≠ 4294967295 + 1 := by
  exact ⟨by decide, by decide⟩

/-- C1 amended: in every iteration where the publish call succeeds, the
    task logs the record, increments the boot counter by exactly one
    modulo 2^32 (it is a uint32_t), arms the wake timer with the fixed
    30 second duration and enters deep sleep as the last action, never
    returning; hence over N consecutive complete cycles with successful
    publishes the boot counter after cycle N equals its value before
    cycle 1 plus N, modulo 2^32 (equivalently: plus N exactly, whenever
    no wrap occurs). -/
theorem boot_counter_per_cycle_amended :
    (∀ (env : MqttEnv) (s : DeviceState),
      s.mqttConnected = true → env.mqttDrop = false →
      s.wifiConnected = true → env.wifiDrop = false →
      env.publishOk = true →
      MQTTTaskStep env s =
        .sleeps ⟨(s.bootCount + 1) % UINT32_MOD, s.ledState, true, true⟩
          [.otaHandle, .mqttLoop,
           .randomCall 1000 4500 env.randTemp, .randomCall 0 10000 env.randMoist,
           .readBattMv env.battMv,
           .publishMsg mqttTopicPub
             (serializeTelemetry s.bootCount env.randTemp env.randMoist env.battMv),
           .takeLock,
           .logLine (serializeTelemetry s.bootCount env.randTemp env.randMoist env.battMv),
           .logLine "Going to sleep until next TX...", .giveLock,
           .bootInc, .armTimerUs SLEEP_DURATION_US, .deepSleepCmd]) ∧
    (∀ (cs : List (List MqttEnv × Bool)) (s s' : DeviceState),
      s.bootCount < UINT32_MOD → runCycles cs s = some s' →
      s'.bootCount = (s.bootCount + cs.length) % UINT32_MOD) := by
  constructor
  · exact step_publish_ok
  · exact runCycles_bootCount

/-- C2: whenever the connected branch runs, the iteration publishes, on
    the telemetry topic, exactly the serialization of the current record;
    the serialization has exactly the field order bootCnt, soilTemperature,
    soilMoisture, batVoltage with 2, 2 and 3 digits after the decimal
    point; and the concrete record (boot count 7, 25.00, 50.00, 4.100 V)
    serializes to the exact expected payload. -/
theorem telemetry_payload_format :
    (∀ (env : MqttEnv) (s : DeviceState),
      s.mqttConnected = true → env.mqttDrop = false →
      s.wifiConnected = true → env.wifiDrop = false →
      Action.publishMsg mqttTopicPub
          (serializeTelemetry s.bootCount env.randTemp env.randMoist env.battMv) ∈
        (MQTTTaskStep env s).trace) ∧
    (∀ bc t m v : Nat,
      serializeTelemetry bc t m v =
        "\x7b\"bootCnt\":" ++ toString bc ++ ",\"soilTemperature\":" ++ fmtFixed 4 2 t ++
        ",\"soilMoisture\":" ++ fmtFixed 5 2 m ++ ",\"batVoltage\":" ++ fmtFixed 4 3 v ++
        "\x7d" ∧
      fracLen (fmtFixed 4 2 t) = 2 ∧ fracLen (fmtFixed 5 2 m) = 2 ∧
      fracLen (fmtFixed 4 3 v) = 3) ∧
    serializeTelemetry 7 2500 5000 4100 =
      "\x7b\"bootCnt\":7,\"soilTemperature\":25.00,\"soilMoisture\":50.00,\"batVoltage\":4.100\x7d" := by
  refine ⟨?_, ?_, by decide⟩
  · intro env s h1 h2 h3 h4
    cases h5 : env.publishOk
    · rw [step_publish_fail env s h1 h2 h3 h4 h5]
      simp [MqttStepResult.trace]
    · rw [step_publish_ok env s h1 h2 h3 h4 h5]
      simp [MqttStepResult.trace]
  · intro bc t m v
    exact ⟨rfl, fracLen_fmtFixed 4 2 t, fracLen_fmtFixed 5 2 m, fracLen_fmtFixed 4 3 v⟩

/-- C2 witness: the concrete connected state with boot count 7 and the
    concrete readings publish the exact expected payload. -/
theorem telemetry_payload_format_witness :
    Action.publishMsg mqttTopicPub
        "\x7b\"bootCnt\":7,\"soilTemperature\":25.00,\"soilMoisture\":50.00,\"batVoltage\":4.100\x7d" ∈
      (MQTTTaskStep envOk st7).trace := by
  have h := telemetry_payload_format.1 envOk st7 rfl rfl rfl rfl
  simpa using h

/-- No iteration of the reconnect loop reads a soil sensor. -/
theorem sensor_free_mqttAttempt (ok : Bool) (rc : Int) :
    (mqttAttemptTrace ok rc).countP (fun a => a == Action.sensorRead) = 0 := by
  cases ok <;> simp [mqttAttemptTrace]

/-- reconnectToMQTT reads no soil sensor. -/
theorem sensor_free_reconnect (atts : List (Bool × Int)) :
    (reconnectToMQTT atts).1.countP (fun a => a == Action.sensorRead) = 0 := by
  induction atts with
  | nil => rfl
  | cons a rest ih =>
    obtain ⟨ok, rc⟩ := a
    cases ok <;>
      simp [reconnectToMQTT, List.countP_append, sensor_free_mqttAttempt, ih]

/-- The WiFi retry wait loop reads no soil sensor. -/
theorem sensor_free_wifiRetry :
    ∀ (n : Nat) (led : Bool),
      (wifiRetryTrace n led).1.countP (fun a => a == Action.sensorRead) = 0 := by
  intro n
  induction n with
  | zero => intro led; rfl
  | succ n ih =>
    intro led
    simp [wifiRetryTrace, List.countP_append, List.countP_cons, ih]

/-- The WiFi reconnect branch reads no soil sensor. -/
theorem sensor_free_wifiReconnect (retries : Nat) (led : Bool) :
    (wifiReconnectTrace retries led).1.countP (fun a => a == Action.sensorRead) = 0 := by
  simp only [wifiReconnectTrace, List.countP_append]
  rw [sensor_free_wifiRetry]
  split <;> simp

/-- C10: in every connected iteration the external reads are, in order,
    exactly random(1000, 4500) for soilTemperature, random(0, 10000) for
    soilMoisture and the PMU battery voltage read for batVoltage — the two
    soil fields come from the pseudo random generator, the battery from
    the AXP192 — and (second conjunct) no iteration of the task, whatever
    its branch, ever reads a physical soil sensor. -/
theorem telemetry_fields_from_rng :
    (∀ (env : MqttEnv) (s : DeviceState),
      s.mqttConnected = true → env.mqttDrop = false →
      s.wifiConnected = true → env.wifiDrop = false →
      (MQTTTaskStep env s).trace.filter isExternalRead =
        [.randomCall 1000 4500 env.randTemp, .randomCall 0 10000 env.randMoist,
         .readBattMv env.battMv]) ∧
    (∀ (env : MqttEnv) (s : DeviceState),
      (MQTTTaskStep env s).trace.countP (fun a => a == Action.sensorRead) = 0) := by
  constructor
  · intro env s h1 h2 h3 h4
    cases h5 : env.publishOk
    · rw [step_publish_fail env s h1 h2 h3 h4 h5]
      simp [MqttStepResult.trace, isExternalRead]
    · rw [step_publish_ok env s h1 h2 h3 h4 h5]
      simp [MqttStepResult.trace, isExternalRead]
  · intro env s
    simp only [MQTTTaskStep]
    repeat' split
    all_goals
      simp [MqttStepResult.trace, List.countP_append, List.countP_cons,
            sensor_free_reconnect, sensor_free_wifiReconnect]

/-- C10 witness: the concrete connected iteration reads exactly the two
    random values and the battery voltage. -/
theorem telemetry_fields_from_rng_witness :
    (MQTTTaskStep envOk st7).trace.filter isExternalRead =
      [.randomCall 1000 4500 2500, .randomCall 0 10000 5000, .readBattMv 4100] := by
  have h := telemetry_fields_from_rng.1 envOk st7 rfl rfl rfl rfl
  simpa using h

/-- Lock accounting distributes over trace concatenation. -/
theorem lockGo_append :
    ∀ (t1 t2 : List Action) (d : Nat),
      lockGo (t1 ++ t2) d = (lockGo t1 d).bind (fun e => lockGo t2 e) := by
  intro t1
  induction t1 with
  | nil => intro t2 d; rfl
  | cons a t1 ih =>
    intro t2 d
    cases a <;>
      simp only [List.cons_append, lockGo] <;>
      first
        | exact ih t2 _
        | (by_cases h : d = 0 <;> simp [h, ih])

/-- One reconnect attempt acquires and releases the lock in a balanced
    way, from any depth. -/
theorem lockGo_mqttAttempt (ok : Bool) (rc : Int) (d : Nat) :
    lockGo (mqttAttemptTrace ok rc) d = some d := by
  cases ok <;> simp [mqttAttemptTrace, lockGo]

/-- The whole reconnect loop leaves the lock depth unchanged. -/
theorem lockGo_reconnect (atts : List (Bool × Int)) :
    ∀ d : Nat, lockGo (reconnectToMQTT atts).1 d = some d := by
  induction atts with
  | nil => intro d; rfl
  | cons a rest ih =>
    obtain ⟨ok, rc⟩ := a
    intro d
    cases ok <;> simp [reconnectToMQTT, lockGo_append, lockGo_mqttAttempt, ih]

/-- The WiFi retry wait loop leaves the lock depth unchanged. -/
theorem lockGo_wifiRetry :
    ∀ (n : Nat) (led : Bool) (d : Nat), lockGo (wifiRetryTrace n led).1 d = some d := by
  intro n
  induction n with
  | zero => intro led d; rfl
  | succ n ih =>
    intro led d
    simp [wifiRetryTrace, lockGo_append, lockGo, ih]

/-- The WiFi reconnect branch leaves the lock depth unchanged. -/
theorem lockGo_wifiReconnect (retries : Nat) (led : Bool) (d : Nat) :
    lockGo (wifiReconnectTrace retries led).1 d = some d := by
  by_cases h : (wifiRetryTrace retries led).2 <;>
    simp [wifiReconnectTrace, lockGo_append, lockGo_wifiRetry, lockGo, h]

/-- The final LED fix of the WiFi branch never touches the lock. -/
theorem lockGo_ledFix (c : Bool) (d : Nat) :
    lockGo (if c = true then [Action.ledWrite false] else []) d = some d := by
  split <;> simp [lockGo]

/-- C9: the serial console lock is never held across a non returning
    transition: on every iteration of either task, every acquisition is
    released after the diagnostic write, the deep sleep and shutdown
    commands execute with the lock free, and the iteration ends with the
    lock free. -/
theorem console_lock_released_before_terminal :
    (∀ (env : MqttEnv) (s : DeviceState), lockSafe (MQTTTaskStep env s).trace) ∧
    (∀ pressed isLong : Bool, lockSafe (PEKTaskStep pressed isLong).1) := by
  constructor
  · intro env s
    simp only [MQTTTaskStep]
    repeat' split
    all_goals
      simp [MqttStepResult.trace, lockSafe, lockGo_append, lockGo_reconnect,
            lockGo_wifiRetry, lockGo_ledFix, lockGo]
  · intro p l
    cases p <;> cases l <;> decide

/-- C1 witness: two concrete successful cycles from boot counter 7 end at
    boot counter 9 = (7 + 2) mod 2^32. -/
theorem boot_counter_per_cycle_amended_witness :
    st7.bootCount < UINT32_MOD ∧
    runCycles [([envOk], false), ([envOk2], false)] st7 = some st9run ∧
    st9run.bootCount = (st7.bootCount + 2) % UINT32_MOD :=
  ⟨by decide, by decide,
   boot_counter_per_cycle_amended.2 [([envOk], false), ([envOk2], false)] st7 st9run
     (by decide) (by decide)⟩

end SoilSensor
